import Mathlib

/-!
# Verification of the resource value binding layer

A shallow embedding of `pyoxidizer/src/starlark/python_resource.rs`: the
adapter wrapping packaging-domain resource records as immutable values of the
embedded Starlark scripting language.  The domain record types come from
`crate::py_packaging` and the generic value plumbing from the `starlark`
crate; neither is part of the analyzed sources, so those parts are modelled
from the specification and marked as such.  Everything else is translated
directly from the source file.
-/

/-- Modelled from the spec: the three-valued bytecode optimization level
enumeration (`BytecodeOptimizationLevel` in `py_packaging::resource`,
not part of the analyzed sources). -/
inductive BytecodeOptimizationLevel
  | Zero
  | One
  | Two
  deriving DecidableEq

/-- Modelled from the spec: the Rust `{:?}` (derived `Debug`) rendering of an
optimization-level variant, which prints the variant name. -/
def BytecodeOptimizationLevel.debugStr : BytecodeOptimizationLevel → String
  | .Zero => "Zero"
  | .One => "One"
  | .Two => "Two"

/-- Modelled from the spec: a source module domain record
`SourceModule {name, source, is_package}` (`py_packaging::resource`,
not part of the analyzed sources).  Source bytes are modelled as `List Nat`. -/
structure SourceModule where
  name : String
  source : List Nat
  is_package : Bool
  deriving DecidableEq

/-- Modelled from the spec: a byte-compiled-module request domain record
`BytecodeModule {name, source, optimize_level, is_package}`
(`py_packaging::resource`, not part of the analyzed sources). -/
structure BytecodeModule where
  name : String
  source : List Nat
  optimize_level : BytecodeOptimizationLevel
  is_package : Bool
  deriving DecidableEq

/-- Modelled from the spec: a generic data resource domain record
`ResourceData {package, name, data}` (`py_packaging::resource`,
not part of the analyzed sources). -/
structure ResourceData where
  package : String
  name : String
  data : List Nat
  deriving DecidableEq

/-- Modelled from the spec: the distribution-provided extension module
descriptor (`standalone_distribution::ExtensionModule`, not part of the
analyzed sources); the display name is derived from its `module` field. -/
structure ExtensionModule where
  module : String
  deriving DecidableEq

/-- Modelled from the spec: the extension module data descriptor
(`py_packaging::resource::ExtensionModuleData`, not part of the analyzed
sources); the display name is derived from its `name` field. -/
structure ExtensionModuleData where
  name : String
  deriving DecidableEq

/-- Modelled from the spec: the domain resource tagged union
(`py_packaging::resource::PythonResource`, not part of the analyzed sources).
The already-compiled byte module variant is opaque and currently
unconvertible, so it is modelled without fields. -/
inductive PythonResource
  | ModuleSource (name : String) (source : List Nat) (is_package : Bool)
  | ModuleBytecodeRequest (name : String) (source : List Nat)
      (optimize_level : BytecodeOptimizationLevel) (is_package : Bool)
  | ModuleBytecode
  | Resource (package : String) (name : String) (data : List Nat)
  | ExtensionModuleDynamicLibrary (em : ExtensionModuleData)
  | ExtensionModuleStaticallyLinked (em : ExtensionModuleData)
  deriving DecidableEq

/-- Modelled from the spec: a scripting-language value as produced by
attribute retrieval on a wrapped value — text, boolean, or integer
(`starlark::values::Value`, external crate). -/
inductive AttrValue
  | text (s : String)
  | boolean (b : Bool)
  | int (n : Int)
  deriving DecidableEq

/-- Modelled from the spec: the structured "operation not supported" error
(`starlark::values::ValueError::OperationNotSupported`, external crate),
carrying the attempted operator, the left-hand type's kind name, and an
optional right-hand operand. -/
structure OperationNotSupported where
  op : String
  left : String
  right : Option String
  deriving DecidableEq

/-- Truth of "attribute retrieval succeeded" for a `get_attr` result. -/
def getSucceeds (r : Except OperationNotSupported AttrValue) : Bool :=
  match r with
  | .ok _ => true
  | .error _ => false

/-- Wrapper type `PythonSourceModule` from the source file. -/
structure PythonSourceModule where
  module : SourceModule
  deriving DecidableEq

/-- Embeds `PythonSourceModule::to_str`. -/
def PythonSourceModule.to_str (v : PythonSourceModule) : String :=
  "PythonSourceModule<name=" ++ v.module.name ++ ">"

/-- Embeds `PythonSourceModule::to_repr` (delegates to `to_str`). -/
def PythonSourceModule.to_repr (v : PythonSourceModule) : String :=
  v.to_str

/-- Embeds `PythonSourceModule::get_type`. -/
def PythonSourceModule.get_type (_ : PythonSourceModule) : String :=
  "PythonSourceModule"

/-- Embeds `PythonSourceModule::to_bool`. -/
def PythonSourceModule.to_bool (_ : PythonSourceModule) : Bool :=
  true

/-- Embeds `PythonSourceModule::get_attr`. -/
def PythonSourceModule.get_attr (v : PythonSourceModule) (attrName : String) :
    Except OperationNotSupported AttrValue :=
  if attrName = "name" then .ok (.text v.module.name)
  else if attrName = "is_package" then .ok (.boolean v.module.is_package)
  else .error ⟨"." ++ attrName, "PythonSourceModule", none⟩

/-- Embeds `PythonSourceModule::has_attr`. -/
def PythonSourceModule.has_attr (_v : PythonSourceModule) (attrName : String) :
    Except OperationNotSupported Bool :=
  .ok (if attrName = "name" then true
       else if attrName = "is_package" then true
       else false)

/-- Wrapper type `PythonBytecodeModule` from the source file. -/
structure PythonBytecodeModule where
  module : BytecodeModule
  deriving DecidableEq

/-- Embeds `PythonBytecodeModule::to_str`. -/
def PythonBytecodeModule.to_str (v : PythonBytecodeModule) : String :=
  "PythonBytecodeModule<name=" ++ v.module.name ++ "; level=" ++
    v.module.optimize_level.debugStr ++ ">"

/-- Embeds `PythonBytecodeModule::to_repr` (delegates to `to_str`). -/
def PythonBytecodeModule.to_repr (v : PythonBytecodeModule) : String :=
  v.to_str

/-- Embeds `PythonBytecodeModule::get_type`. -/
def PythonBytecodeModule.get_type (_ : PythonBytecodeModule) : String :=
  "PythonBytecodeModule"

/-- Embeds `PythonBytecodeModule::to_bool`. -/
def PythonBytecodeModule.to_bool (_ : PythonBytecodeModule) : Bool :=
  true

/-- Embeds `PythonBytecodeModule::get_attr`. -/
def PythonBytecodeModule.get_attr (v : PythonBytecodeModule) (attrName : String) :
    Except OperationNotSupported AttrValue :=
  if attrName = "name" then .ok (.text v.module.name)
  else if attrName = "optimize_level" then
    .ok (.int (match v.module.optimize_level with
               | .Zero => 0
               | .One => 1
               | .Two => 2))
  else if attrName = "is_package" then .ok (.boolean v.module.is_package)
  else .error ⟨"." ++ attrName, "PythonBytecodeModule", none⟩

/-- Embeds `PythonBytecodeModule::has_attr`. -/
def PythonBytecodeModule.has_attr (_v : PythonBytecodeModule) (attrName : String) :
    Except OperationNotSupported Bool :=
  .ok (if attrName = "name" then true
       else if attrName = "optimize_level" then true
       else if attrName = "is_package" then true
       else false)

/-- Wrapper type `PythonResourceData` from the source file. -/
structure PythonResourceData where
  data : ResourceData
  deriving DecidableEq

/-- Embeds `PythonResourceData::to_str`. -/
def PythonResourceData.to_str (v : PythonResourceData) : String :=
  "PythonResourceData<package=" ++ v.data.package ++ ", name=" ++ v.data.name ++ ">"

/-- Embeds `PythonResourceData::to_repr` (delegates to `to_str`). -/
def PythonResourceData.to_repr (v : PythonResourceData) : String :=
  v.to_str

/-- Embeds `PythonResourceData::get_type`. -/
def PythonResourceData.get_type (_ : PythonResourceData) : String :=
  "PythonResourceData"

/-- Embeds `PythonResourceData::to_bool`. -/
def PythonResourceData.to_bool (_ : PythonResourceData) : Bool :=
  true

/-- Embeds `PythonResourceData::get_attr`. -/
def PythonResourceData.get_attr (v : PythonResourceData) (attrName : String) :
    Except OperationNotSupported AttrValue :=
  if attrName = "package" then .ok (.text v.data.package)
  else if attrName = "name" then .ok (.text v.data.name)
  else .error ⟨"." ++ attrName, "PythonResourceData", none⟩

/-- Embeds `PythonResourceData::has_attr`. -/
def PythonResourceData.has_attr (_v : PythonResourceData) (attrName : String) :
    Except OperationNotSupported Bool :=
  .ok (if attrName = "package" then true
       else if attrName = "name" then true
       else false)

/-- Extension module flavor enumeration `PythonExtensionModuleFlavor` from the
source file. -/
inductive PythonExtensionModuleFlavor
  | Distribution (m : ExtensionModule)
  | StaticallyLinked (m : ExtensionModuleData)
  | DynamicLibrary (m : ExtensionModuleData)
  deriving DecidableEq

/-- Embeds `PythonExtensionModuleFlavor::name`. -/
def PythonExtensionModuleFlavor.name : PythonExtensionModuleFlavor → String
  | .Distribution m => m.module
  | .StaticallyLinked m => m.name
  | .DynamicLibrary m => m.name

/-- Wrapper type `PythonExtensionModule` from the source file. -/
structure PythonExtensionModule where
  em : PythonExtensionModuleFlavor
  deriving DecidableEq

/-- Embeds `PythonExtensionModule::to_str`. -/
def PythonExtensionModule.to_str (v : PythonExtensionModule) : String :=
  "PythonExtensionModule<name=" ++ v.em.name ++ ">"

/-- Embeds `PythonExtensionModule::to_repr` (delegates to `to_str`). -/
def PythonExtensionModule.to_repr (v : PythonExtensionModule) : String :=
  v.to_str

/-- Embeds `PythonExtensionModule::get_type`. -/
def PythonExtensionModule.get_type (_ : PythonExtensionModule) : String :=
  "PythonExtensionModule"

/-- Embeds `PythonExtensionModule::to_bool`. -/
def PythonExtensionModule.to_bool (_ : PythonExtensionModule) : Bool :=
  true

/-- Embeds `PythonExtensionModule::get_attr`. -/
def PythonExtensionModule.get_attr (v : PythonExtensionModule) (attrName : String) :
    Except OperationNotSupported AttrValue :=
  if attrName = "name" then .ok (.text v.em.name)
  else .error ⟨"." ++ attrName, "PythonExtensionModule", none⟩

/-- Embeds `PythonExtensionModule::has_attr`. -/
def PythonExtensionModule.has_attr (_v : PythonExtensionModule) (attrName : String) :
    Except OperationNotSupported Bool :=
  .ok (if attrName = "name" then true else false)

/-- Modelled from the spec: lexicographic structural comparison of two byte
payloads, a component of the generic structural comparer. -/
def compareBytes : List Nat → List Nat → Ordering
  | [], [] => .eq
  | [], _ :: _ => .lt
  | _ :: _, [] => .gt
  | a :: as, b :: bs => (compare a b).then (compareBytes as bs)

/-- Modelled from the spec: numeric rank of an optimization-level variant,
used by the structural comparer. -/
def BytecodeOptimizationLevel.rank : BytecodeOptimizationLevel → Nat
  | .Zero => 0
  | .One => 1
  | .Two => 2

/-- Modelled from the spec: the generic field-wise structural comparer
(`starlark::values::default_compare`, external crate) instantiated at a
wrapped `SourceModule` record. -/
def SourceModule.structCompare (a b : SourceModule) : Ordering :=
  (compare a.name b.name).then
    ((compareBytes a.source b.source).then (compare a.is_package b.is_package))

/-- Modelled from the spec: the generic field-wise structural comparer
instantiated at a wrapped `BytecodeModule` record. -/
def BytecodeModule.structCompare (a b : BytecodeModule) : Ordering :=
  (compare a.name b.name).then
    ((compareBytes a.source b.source).then
      ((compare a.optimize_level.rank b.optimize_level.rank).then
        (compare a.is_package b.is_package)))

/-- Modelled from the spec: the generic field-wise structural comparer
instantiated at a wrapped `ResourceData` record. -/
def ResourceData.structCompare (a b : ResourceData) : Ordering :=
  (compare a.package b.package).then
    ((compare a.name b.name).then (compareBytes a.data b.data))

/-- Modelled from the spec: numeric rank of an extension module flavor tag,
used by the structural comparer. -/
def PythonExtensionModuleFlavor.rank : PythonExtensionModuleFlavor → Nat
  | .Distribution _ => 0
  | .StaticallyLinked _ => 1
  | .DynamicLibrary _ => 2

/-- Modelled from the spec: the generic structural comparer instantiated at a
wrapped extension module flavor — tag first, then the descriptor fields. -/
def PythonExtensionModuleFlavor.structCompare :
    PythonExtensionModuleFlavor → PythonExtensionModuleFlavor → Ordering
  | .Distribution a, .Distribution b => compare a.module b.module
  | .StaticallyLinked a, .StaticallyLinked b => compare a.name b.name
  | .DynamicLibrary a, .DynamicLibrary b => compare a.name b.name
  | a, b => compare a.rank b.rank

/-- Embeds `PythonSourceModule::compare`, which delegates to the generic
structural comparer over the wrapped record. -/
def PythonSourceModule.compare (a b : PythonSourceModule) : Ordering :=
  a.module.structCompare b.module

/-- Embeds `PythonBytecodeModule::compare`, which delegates to the generic
structural comparer over the wrapped record. -/
def PythonBytecodeModule.compare (a b : PythonBytecodeModule) : Ordering :=
  a.module.structCompare b.module

/-- Embeds `PythonResourceData::compare`, which delegates to the generic
structural comparer over the wrapped record. -/
def PythonResourceData.compare (a b : PythonResourceData) : Ordering :=
  a.data.structCompare b.data

/-- Embeds `PythonExtensionModule::compare`, which delegates to the generic
structural comparer over the wrapped record. -/
def PythonExtensionModule.compare (a b : PythonExtensionModule) : Ordering :=
  a.em.structCompare b.em

/-- One wrapped scripting value of any of the four kinds: the possible
results of the dispatch/conversion function. -/
inductive WrappedValue
  | sourceModule (v : PythonSourceModule)
  | bytecodeModule (v : PythonBytecodeModule)
  | resourceData (v : PythonResourceData)
  | extensionModule (v : PythonExtensionModule)
  deriving DecidableEq

/-- Kind name of a wrapped value, dispatching to each kind's `get_type`. -/
def WrappedValue.get_type : WrappedValue → String
  | .sourceModule v => v.get_type
  | .bytecodeModule v => v.get_type
  | .resourceData v => v.get_type
  | .extensionModule v => v.get_type

/-- Truthiness of a wrapped value, dispatching to each kind's `to_bool`. -/
def WrappedValue.to_bool : WrappedValue → Bool
  | .sourceModule v => v.to_bool
  | .bytecodeModule v => v.to_bool
  | .resourceData v => v.to_bool
  | .extensionModule v => v.to_bool

/-- Display string of a wrapped value, dispatching to each kind's `to_str`. -/
def WrappedValue.to_str : WrappedValue → String
  | .sourceModule v => v.to_str
  | .bytecodeModule v => v.to_str
  | .resourceData v => v.to_str
  | .extensionModule v => v.to_str

/-- Embeds `impl From<&PythonResource> for Value`, the dispatch/conversion
function.  The `PythonResource::ModuleBytecode` arm of the source executes
an unconditional process abort ("not yet implemented"); the abort is
modelled as `none`, and every normal return as `some` of the constructed
wrapped value. -/
def valueFrom : PythonResource → Option WrappedValue
  | .ModuleSource name source is_package =>
      some (.sourceModule ⟨⟨name, source, is_package⟩⟩)
  | .ModuleBytecodeRequest name source optimize_level is_package =>
      some (.bytecodeModule ⟨⟨name, source, optimize_level, is_package⟩⟩)
  | .ModuleBytecode => none
  | .Resource package name data =>
      some (.resourceData ⟨⟨package, name, data⟩⟩)
  | .ExtensionModuleDynamicLibrary em =>
      some (.extensionModule ⟨.DynamicLibrary em⟩)
  | .ExtensionModuleStaticallyLinked em =>
      some (.extensionModule ⟨.StaticallyLinked em⟩)

/-- Modelled from the spec: the capabilities outside the six-capability
contract, all rejected wholesale by the wrapped value types (the
`not_supported!` macro arguments in the source file). -/
inductive Capability
  | binop
  | dir_attr
  | function
  | get_hash
  | indexable
  | iterable
  | sequence
  | set_attr
  | to_int
  deriving DecidableEq

/-- Modelled from the spec: the operator token reported when an unsupported
capability is invoked. -/
def Capability.opString : Capability → String
  | .binop => "binop"
  | .dir_attr => "dir()"
  | .function => "call()"
  | .get_hash => "hash()"
  | .indexable => "[]"
  | .iterable => "iterate"
  | .sequence => "len()"
  | .set_attr => "set_attr"
  | .to_int => "int()"

/-- Modelled from the spec: invoking a capability outside the six-capability
contract on any wrapped value fails with an operation-not-supported error
(the external library's `not_supported!` macro expansion). -/
def WrappedValue.invokeUnsupported (v : WrappedValue) (c : Capability) :
    Except OperationNotSupported AttrValue :=
  .error ⟨c.opString, v.get_type, none⟩

theorem compareBytes_eq_eq : ∀ a b : List Nat, compareBytes a b = .eq ↔ a = b := by
  intro a
  induction a with
  | nil => intro b; cases b <;> simp [compareBytes]
  | cons x xs ih =>
    intro b
    cases b with
    | nil => simp [compareBytes]
    | cons y ys =>
      simp [compareBytes, Ordering.then_eq_eq, ih, Batteries.BEqCmp.cmp_iff_eq]

theorem sourceRecordCompare_eq (a b : SourceModule) :
    a.structCompare b = .eq ↔ a = b := by
  obtain ⟨n, s, p⟩ := a
  obtain ⟨n2, s2, p2⟩ := b
  simp [SourceModule.structCompare, Ordering.then_eq_eq, compareBytes_eq_eq,
    Batteries.BEqCmp.cmp_iff_eq, and_assoc]

theorem BytecodeOptimizationLevel.rank_inj (a b : BytecodeOptimizationLevel) :
    a.rank = b.rank ↔ a = b := by
  cases a <;> cases b <;> decide

theorem bytecodeRecordCompare_eq (a b : BytecodeModule) :
    a.structCompare b = .eq ↔ a = b := by
  obtain ⟨n, s, l, p⟩ := a
  obtain ⟨n2, s2, l2, p2⟩ := b
  simp [BytecodeModule.structCompare, Ordering.then_eq_eq, compareBytes_eq_eq,
    Batteries.BEqCmp.cmp_iff_eq, BytecodeOptimizationLevel.rank_inj, and_assoc]

theorem resourceRecordCompare_eq (a b : ResourceData) :
    a.structCompare b = .eq ↔ a = b := by
  obtain ⟨pkg, n, d⟩ := a
  obtain ⟨pkg2, n2, d2⟩ := b
  simp [ResourceData.structCompare, Ordering.then_eq_eq, compareBytes_eq_eq,
    Batteries.BEqCmp.cmp_iff_eq, and_assoc]

theorem flavorCompare_eq
    (a b : PythonExtensionModuleFlavor) : a.structCompare b = .eq ↔ a = b := by
  rcases a with ⟨⟨x⟩⟩ | ⟨⟨x⟩⟩ | ⟨⟨x⟩⟩ <;> rcases b with ⟨⟨y⟩⟩ | ⟨⟨y⟩⟩ | ⟨⟨y⟩⟩ <;>
    simp [PythonExtensionModuleFlavor.structCompare, PythonExtensionModuleFlavor.rank,
      Batteries.BEqCmp.cmp_iff_eq]

theorem sourceValueCompare_eq (a b : PythonSourceModule) :
    a.compare b = .eq ↔ a = b := by
  obtain ⟨ma⟩ := a
  obtain ⟨mb⟩ := b
  simp [PythonSourceModule.compare, sourceRecordCompare_eq]

theorem bytecodeValueCompare_eq (a b : PythonBytecodeModule) :
    a.compare b = .eq ↔ a = b := by
  obtain ⟨ma⟩ := a
  obtain ⟨mb⟩ := b
  simp [PythonBytecodeModule.compare, bytecodeRecordCompare_eq]

theorem resourceValueCompare_eq (a b : PythonResourceData) :
    a.compare b = .eq ↔ a = b := by
  obtain ⟨ma⟩ := a
  obtain ⟨mb⟩ := b
  simp [PythonResourceData.compare, resourceRecordCompare_eq]

theorem extensionValueCompare_eq (a b : PythonExtensionModule) :
    a.compare b = .eq ↔ a = b := by
  obtain ⟨ma⟩ := a
  obtain ⟨mb⟩ := b
  simp [PythonExtensionModule.compare, flavorCompare_eq]

/-- C1: for every wrapped-value kind and every attribute name in that kind's
allowlist, `has_attr` returns true and `get_attr` succeeds with a value of the
declared type (text, boolean, or integer); and for every kind and every name,
`has_attr` is true if and only if `get_attr` succeeds. -/
theorem allowlist_attrs_and_agreement :
    (∀ v : PythonSourceModule,
      v.has_attr "name" = .ok true ∧ (∃ s, v.get_attr "name" = .ok (.text s)) ∧
      v.has_attr "is_package" = .ok true ∧
      (∃ b, v.get_attr "is_package" = .ok (.boolean b))) ∧
    (∀ v : PythonBytecodeModule,
      v.has_attr "name" = .ok true ∧ (∃ s, v.get_attr "name" = .ok (.text s)) ∧
      v.has_attr "optimize_level" = .ok true ∧
      (∃ n, v.get_attr "optimize_level" = .ok (.int n)) ∧
      v.has_attr "is_package" = .ok true ∧
      (∃ b, v.get_attr "is_package" = .ok (.boolean b))) ∧
    (∀ v : PythonResourceData,
      v.has_attr "package" = .ok true ∧ (∃ s, v.get_attr "package" = .ok (.text s)) ∧
      v.has_attr "name" = .ok true ∧ (∃ s, v.get_attr "name" = .ok (.text s))) ∧
    (∀ v : PythonExtensionModule,
      v.has_attr "name" = .ok true ∧ (∃ s, v.get_attr "name" = .ok (.text s))) ∧
    (∀ (v : PythonSourceModule) (a : String),
      v.has_attr a = .ok true ↔ getSucceeds (v.get_attr a) = true) ∧
    (∀ (v : PythonBytecodeModule) (a : String),
      v.has_attr a = .ok true ↔ getSucceeds (v.get_attr a) = true) ∧
    (∀ (v : PythonResourceData) (a : String),
      v.has_attr a = .ok true ↔ getSucceeds (v.get_attr a) = true) ∧
    (∀ (v : PythonExtensionModule) (a : String),
      v.has_attr a = .ok true ↔ getSucceeds (v.get_attr a) = true) := by
  refine ⟨fun v => ⟨rfl, ⟨_, rfl⟩, rfl, ⟨_, rfl⟩⟩,
          fun v => ⟨rfl, ⟨_, rfl⟩, rfl, ⟨_, rfl⟩, rfl, ⟨_, rfl⟩⟩,
          fun v => ⟨rfl, ⟨_, rfl⟩, rfl, ⟨_, rfl⟩⟩,
          fun v => ⟨rfl, ⟨_, rfl⟩⟩, ?_, ?_, ?_, ?_⟩
  · intro v a
    simp only [PythonSourceModule.has_attr, PythonSourceModule.get_attr]
    split_ifs <;> simp [getSucceeds]
  · intro v a
    simp only [PythonBytecodeModule.has_attr, PythonBytecodeModule.get_attr]
    split_ifs <;> simp [getSucceeds]
  · intro v a
    simp only [PythonResourceData.has_attr, PythonResourceData.get_attr]
    split_ifs <;> simp [getSucceeds]
  · intro v a
    simp only [PythonExtensionModule.has_attr, PythonExtensionModule.get_attr]
    split_ifs <;> simp [getSucceeds]

/-- C2: for every wrapped-value kind and any attribute name outside that
kind's allowlist, `has_attr` returns false and `get_attr` fails with an
operation-not-supported error whose operator is "." followed by the attempted
name, whose left field is the kind name, and which has no right operand. -/
theorem unknown_attr_rejected :
    (∀ (v : PythonSourceModule) (a : String), a ≠ "name" → a ≠ "is_package" →
      v.has_attr a = .ok false ∧
      v.get_attr a = .error ⟨"." ++ a, "PythonSourceModule", none⟩) ∧
    (∀ (v : PythonBytecodeModule) (a : String),
      a ≠ "name" → a ≠ "optimize_level" → a ≠ "is_package" →
      v.has_attr a = .ok false ∧
      v.get_attr a = .error ⟨"." ++ a, "PythonBytecodeModule", none⟩) ∧
    (∀ (v : PythonResourceData) (a : String), a ≠ "package" → a ≠ "name" →
      v.has_attr a = .ok false ∧
      v.get_attr a = .error ⟨"." ++ a, "PythonResourceData", none⟩) ∧
    (∀ (v : PythonExtensionModule) (a : String), a ≠ "name" →
      v.has_attr a = .ok false ∧
      v.get_attr a = .error ⟨"." ++ a, "PythonExtensionModule", none⟩) := by
  refine ⟨?_, ?_, ?_, ?_⟩
  · intro v a h1 h2
    constructor <;> simp [PythonSourceModule.has_attr, PythonSourceModule.get_attr, h1, h2]
  · intro v a h1 h2 h3
    constructor <;>
      simp [PythonBytecodeModule.has_attr, PythonBytecodeModule.get_attr, h1, h2, h3]
  · intro v a h1 h2
    constructor <;> simp [PythonResourceData.has_attr, PythonResourceData.get_attr, h1, h2]
  · intro v a h1
    constructor <;> simp [PythonExtensionModule.has_attr, PythonExtensionModule.get_attr, h1]

/-- Witness for C2: each kind rejects the withheld attribute name "source"
with the documented structured error. -/
theorem unknown_attr_rejected_w :
    (PythonSourceModule.mk ⟨"m", [], false⟩).has_attr "source" = .ok false ∧
    (PythonSourceModule.mk ⟨"m", [], false⟩).get_attr "source" =
      .error ⟨".source", "PythonSourceModule", none⟩ ∧
    (PythonBytecodeModule.mk ⟨"m", [], .Zero, false⟩).get_attr "source" =
      .error ⟨".source", "PythonBytecodeModule", none⟩ ∧
    (PythonResourceData.mk ⟨"p", "n", []⟩).get_attr "source" =
      .error ⟨".source", "PythonResourceData", none⟩ ∧
    (PythonExtensionModule.mk (.DynamicLibrary ⟨"m"⟩)).get_attr "source" =
      .error ⟨".source", "PythonExtensionModule", none⟩ := by
  obtain ⟨h1, h2, h3, h4⟩ := unknown_attr_rejected
  exact ⟨(h1 ⟨⟨"m", [], false⟩⟩ "source" (by decide) (by decide)).1,
         (h1 ⟨⟨"m", [], false⟩⟩ "source" (by decide) (by decide)).2,
         (h2 ⟨⟨"m", [], .Zero, false⟩⟩ "source" (by decide) (by decide) (by decide)).2,
         (h3 ⟨⟨"p", "n", []⟩⟩ "source" (by decide) (by decide)).2,
         (h4 ⟨.DynamicLibrary ⟨"m"⟩⟩ "source" (by decide)).2⟩

/-- C3: for any two wrapped values of the same kind, comparison yields
equality exactly when the wrapped domain records are field-for-field equal
(so differing records, also in unexposed fields, compare unequal), and the
induced equality is reflexive, symmetric, and transitive for every kind. -/
theorem structural_comparison_laws :
    (∀ a b : PythonSourceModule, a.compare b = .eq ↔ a.module = b.module) ∧
    (∀ a b : PythonBytecodeModule, a.compare b = .eq ↔ a.module = b.module) ∧
    (∀ a b : PythonResourceData, a.compare b = .eq ↔ a.data = b.data) ∧
    (∀ a b : PythonExtensionModule, a.compare b = .eq ↔ a.em = b.em) ∧
    (∀ a : PythonSourceModule, a.compare a = .eq) ∧
    (∀ a b : PythonSourceModule, a.compare b = .eq → b.compare a = .eq) ∧
    (∀ a b c : PythonSourceModule,
      a.compare b = .eq → b.compare c = .eq → a.compare c = .eq) ∧
    (∀ a : PythonBytecodeModule, a.compare a = .eq) ∧
    (∀ a b : PythonBytecodeModule, a.compare b = .eq → b.compare a = .eq) ∧
    (∀ a b c : PythonBytecodeModule,
      a.compare b = .eq → b.compare c = .eq → a.compare c = .eq) ∧
    (∀ a : PythonResourceData, a.compare a = .eq) ∧
    (∀ a b : PythonResourceData, a.compare b = .eq → b.compare a = .eq) ∧
    (∀ a b c : PythonResourceData,
      a.compare b = .eq → b.compare c = .eq → a.compare c = .eq) ∧
    (∀ a : PythonExtensionModule, a.compare a = .eq) ∧
    (∀ a b : PythonExtensionModule, a.compare b = .eq → b.compare a = .eq) ∧
    (∀ a b c : PythonExtensionModule,
      a.compare b = .eq → b.compare c = .eq → a.compare c = .eq) := by
  refine ⟨?_, ?_, ?_, ?_,
          fun a => (sourceValueCompare_eq a a).2 rfl,
          fun a b h => (sourceValueCompare_eq b a).2
            ((sourceValueCompare_eq a b).1 h).symm,
          fun a b c h1 h2 => (sourceValueCompare_eq a c).2
            (((sourceValueCompare_eq a b).1 h1).trans
              ((sourceValueCompare_eq b c).1 h2)),
          fun a => (bytecodeValueCompare_eq a a).2 rfl,
          fun a b h => (bytecodeValueCompare_eq b a).2
            ((bytecodeValueCompare_eq a b).1 h).symm,
          fun a b c h1 h2 => (bytecodeValueCompare_eq a c).2
            (((bytecodeValueCompare_eq a b).1 h1).trans
              ((bytecodeValueCompare_eq b c).1 h2)),
          fun a => (resourceValueCompare_eq a a).2 rfl,
          fun a b h => (resourceValueCompare_eq b a).2
            ((resourceValueCompare_eq a b).1 h).symm,
          fun a b c h1 h2 => (resourceValueCompare_eq a c).2
            (((resourceValueCompare_eq a b).1 h1).trans
              ((resourceValueCompare_eq b c).1 h2)),
          fun a => (extensionValueCompare_eq a a).2 rfl,
          fun a b h => (extensionValueCompare_eq b a).2
            ((extensionValueCompare_eq a b).1 h).symm,
          fun a b c h1 h2 => (extensionValueCompare_eq a c).2
            (((extensionValueCompare_eq a b).1 h1).trans
              ((extensionValueCompare_eq b c).1 h2))⟩
  · intro a b
    obtain ⟨ma⟩ := a
    obtain ⟨mb⟩ := b
    simpa using sourceValueCompare_eq ⟨ma⟩ ⟨mb⟩
  · intro a b
    obtain ⟨ma⟩ := a
    obtain ⟨mb⟩ := b
    simpa using bytecodeValueCompare_eq ⟨ma⟩ ⟨mb⟩
  · intro a b
    obtain ⟨ma⟩ := a
    obtain ⟨mb⟩ := b
    simpa using resourceValueCompare_eq ⟨ma⟩ ⟨mb⟩
  · intro a b
    obtain ⟨ma⟩ := a
    obtain ⟨mb⟩ := b
    simpa using extensionValueCompare_eq ⟨ma⟩ ⟨mb⟩

/-- Witness for C3: transitivity of comparison-equality applied at concrete
source module values. -/
theorem structural_comparison_laws_w :
    (PythonSourceModule.mk ⟨"m", [0], true⟩).compare ⟨⟨"m", [0], true⟩⟩ = .eq := by
  have h := structural_comparison_laws
  exact h.2.2.2.2.2.2.1 ⟨⟨"m", [0], true⟩⟩ ⟨⟨"m", [0], true⟩⟩ ⟨⟨"m", [0], true⟩⟩
    (by decide) (by decide)

/-- C4: converting the already-compiled byte module variant hits an
unconditional process abort (modelled by `none`: no wrapped value and no
recoverable error is produced), while every other documented domain-resource
variant converts to exactly one wrapped value of the corresponding kind. -/
theorem dispatch_conversion_totality :
    valueFrom PythonResource.ModuleBytecode = none ∧
    (∀ n s p, valueFrom (.ModuleSource n s p) = some (.sourceModule ⟨⟨n, s, p⟩⟩)) ∧
    (∀ n s l p, valueFrom (.ModuleBytecodeRequest n s l p) =
      some (.bytecodeModule ⟨⟨n, s, l, p⟩⟩)) ∧
    (∀ p n d, valueFrom (.Resource p n d) = some (.resourceData ⟨⟨p, n, d⟩⟩)) ∧
    (∀ em, valueFrom (.ExtensionModuleDynamicLibrary em) =
      some (.extensionModule ⟨.DynamicLibrary em⟩)) ∧
    (∀ em, valueFrom (.ExtensionModuleStaticallyLinked em) =
      some (.extensionModule ⟨.StaticallyLinked em⟩)) :=
  ⟨rfl, fun _ _ _ => rfl, fun _ _ _ _ => rfl, fun _ _ _ => rfl,
   fun _ => rfl, fun _ => rfl⟩

/-- C5: converting the source module record with name "pkg.mod", empty
source bytes, and is_package true yields a source module value whose `name`
attribute is the text "pkg.mod", whose `is_package` attribute is true, and
whose display string is exactly "PythonSourceModule<name=pkg.mod>"; in
general the conversion copies all three fields verbatim. -/
theorem source_module_conversion_and_display :
    valueFrom (.ModuleSource "pkg.mod" [] true) =
      some (.sourceModule ⟨⟨"pkg.mod", [], true⟩⟩) ∧
    (PythonSourceModule.mk ⟨"pkg.mod", [], true⟩).get_attr "name" =
      .ok (.text "pkg.mod") ∧
    (PythonSourceModule.mk ⟨"pkg.mod", [], true⟩).get_attr "is_package" =
      .ok (.boolean true) ∧
    (PythonSourceModule.mk ⟨"pkg.mod", [], true⟩).to_str =
      "PythonSourceModule<name=pkg.mod>" ∧
    (∀ n s p, valueFrom (.ModuleSource n s p) = some (.sourceModule ⟨⟨n, s, p⟩⟩)) :=
  ⟨rfl, rfl, rfl, rfl, fun _ _ _ => rfl⟩

/-- C6: the `optimize_level` attribute of a byte-compiled module value is the
integer 0 for the first enumeration variant, 1 for the second, and 2 for the
third; no other integer is ever produced; and converting a
byte-compiled-module request maps each level accordingly. -/
theorem optimize_level_attr_mapping :
    (∀ v : PythonBytecodeModule,
      v.get_attr "optimize_level" =
        .ok (.int (match v.module.optimize_level with
                   | .Zero => 0
                   | .One => 1
                   | .Two => 2))) ∧
    (∀ v : PythonBytecodeModule,
      v.get_attr "optimize_level" = .ok (.int 0) ∨
      v.get_attr "optimize_level" = .ok (.int 1) ∨
      v.get_attr "optimize_level" = .ok (.int 2)) ∧
    (∀ n s p, valueFrom (.ModuleBytecodeRequest n s .Zero p) =
        some (.bytecodeModule ⟨⟨n, s, .Zero, p⟩⟩) ∧
      (PythonBytecodeModule.mk ⟨n, s, .Zero, p⟩).get_attr "optimize_level" =
        .ok (.int 0)) ∧
    (∀ n s p, valueFrom (.ModuleBytecodeRequest n s .One p) =
        some (.bytecodeModule ⟨⟨n, s, .One, p⟩⟩) ∧
      (PythonBytecodeModule.mk ⟨n, s, .One, p⟩).get_attr "optimize_level" =
        .ok (.int 1)) ∧
    (∀ n s p, valueFrom (.ModuleBytecodeRequest n s .Two p) =
        some (.bytecodeModule ⟨⟨n, s, .Two, p⟩⟩) ∧
      (PythonBytecodeModule.mk ⟨n, s, .Two, p⟩).get_attr "optimize_level" =
        .ok (.int 2)) := by
  refine ⟨fun v => rfl, ?_, fun n s p => ⟨rfl, rfl⟩, fun n s p => ⟨rfl, rfl⟩,
          fun n s p => ⟨rfl, rfl⟩⟩
  intro v
  obtain ⟨⟨n, s, l, p⟩⟩ := v
  cases l
  · exact Or.inl rfl
  · exact Or.inr (Or.inl rfl)
  · exact Or.inr (Or.inr rfl)

/-- C7: the `name` attribute of an extension module value is derived
per-variant — the distribution descriptor's `module` field for
distribution-provided extensions, the descriptor's `name` field for the
statically-linkable and dynamic-library variants — and `name` is the only
attribute in this kind's allowlist. -/
theorem extension_module_name_attr :
    (∀ m : ExtensionModule,
      (PythonExtensionModule.mk (.Distribution m)).get_attr "name" =
        .ok (.text m.module)) ∧
    (∀ m : ExtensionModuleData,
      (PythonExtensionModule.mk (.StaticallyLinked m)).get_attr "name" =
        .ok (.text m.name)) ∧
    (∀ m : ExtensionModuleData,
      (PythonExtensionModule.mk (.DynamicLibrary m)).get_attr "name" =
        .ok (.text m.name)) ∧
    (∀ v : PythonExtensionModule, v.get_attr "name" = .ok (.text v.em.name)) ∧
    (∀ (v : PythonExtensionModule) (a : String),
      v.has_attr a = .ok true ↔ a = "name") := by
  refine ⟨fun m => rfl, fun m => rfl, fun m => rfl, fun v => rfl, ?_⟩
  intro v a
  unfold PythonExtensionModule.has_attr
  split_ifs with h
  · simp [h]
  · simp [h]

/-- C8: truthiness of every wrapped value of every kind is true
unconditionally, regardless of field contents — a source module value with
empty name text included. -/
theorem truthiness_unconditional :
    (∀ v : WrappedValue, v.to_bool = true) ∧
    (∀ v : PythonSourceModule, v.to_bool = true) ∧
    (∀ v : PythonBytecodeModule, v.to_bool = true) ∧
    (∀ v : PythonResourceData, v.to_bool = true) ∧
    (∀ v : PythonExtensionModule, v.to_bool = true) ∧
    (PythonSourceModule.mk ⟨"", [], false⟩).to_bool = true := by
  refine ⟨?_, fun v => rfl, fun v => rfl, fun v => rfl, fun v => rfl, rfl⟩
  intro v
  cases v <;> rfl

/-- C9: invoking any capability outside the six-capability contract on any
wrapped value of any kind fails with an operation-not-supported error
carrying the value's kind name, and never succeeds. -/
theorem unsupported_capabilities_rejected :
    ∀ (v : WrappedValue) (c : Capability),
      (∃ e : OperationNotSupported,
        v.invokeUnsupported c = .error e ∧ e.left = v.get_type) ∧
      getSucceeds (v.invokeUnsupported c) = false :=
  fun v c => ⟨⟨⟨c.opString, v.get_type, none⟩, rfl, rfl⟩, rfl⟩

/-- C10: the display string of a byte-compiled module value (and the
identical representation string) renders the optimization level as the debug
name of the enumeration variant ("Zero", "One", "Two"), not the integer the
`optimize_level` attribute returns, and omits `is_package`. -/
theorem bytecode_display_format :
    (∀ v : PythonBytecodeModule,
      v.to_str = "PythonBytecodeModule<name=" ++ v.module.name ++ "; level=" ++
        v.module.optimize_level.debugStr ++ ">") ∧
    (∀ v : PythonBytecodeModule, v.to_repr = v.to_str) ∧
    (PythonBytecodeModule.mk ⟨"m", [], .Two, false⟩).to_str =
      "PythonBytecodeModule<name=m; level=Two>" ∧
    (PythonBytecodeModule.mk ⟨"m", [], .Two, false⟩).get_attr "optimize_level" =
      .ok (.int 2) ∧
    (∀ n s l p p2, (PythonBytecodeModule.mk ⟨n, s, l, p⟩).to_str =
      (PythonBytecodeModule.mk ⟨n, s, l, p2⟩).to_str) :=
  ⟨fun _ => rfl, fun _ => rfl, by decide, rfl, fun _ _ _ _ _ => rfl⟩
